import Mathlib

/-!
Verification of the authentication / authorization core of `server.js`
(tourism platform backend).

The JavaScript source is shallowly embedded: every route handler's
auth-relevant control flow is translated into a total Lean function over an
explicit model of the request, the MySQL tables (lists of records), the
bcrypt hasher and the jsonwebtoken codec.  External libraries (`bcryptjs`,
`jsonwebtoken`) are modelled from their documented contracts; everything
else follows `server.js` line by line.
-/

namespace TourismAuth

/-! ## Roles and token claims

`jwt.sign` is called with three payload shapes in `server.js`:
tourist `{id, email, tipo: 'turista'}` (line 106), business admin
`{id, email, negocio_id, tipo: 'admin_negocio'}` (lines 169-174) and
super admin `{id, usuario, tipo: 'super_admin', nivel_acceso}`
(lines 232-237).  A single record with optional fields covers all three. -/

/-- The `tipo` claim: role tag carried inside every token. -/
inductive Rol where
  | turista
  | admin_negocio
  | super_admin
  deriving DecidableEq, Repr

/-- A JWT payload as signed by `server.js`.  Fields absent from a given
role's payload (JavaScript `undefined`) are `none`. -/
structure Claims where
  id : Nat
  email : Option String
  usuario : Option String
  negocio_id : Option Nat
  nivel_acceso : Option Nat
  tipo : Rol
  deriving DecidableEq, Repr

/-! ## Token codec (`jsonwebtoken`)

Modelled from the `jsonwebtoken` library contract used by `server.js`:
`jwt.sign(payload, JWT_SECRET, {expiresIn: '24h'})` embeds
`iat = now` and `exp = now + 86400` (seconds); `jwt.verify(token, key)`
throws on a malformed token, a signature made with a different key, or
when the clock timestamp is `≥ exp`, and otherwise returns the payload.
A token value on the wire is either garbage or a signed payload; the
signing key recorded in the wire value models the signature. -/

/-- A token as it travels on the wire. -/
inductive TokenWire where
  | malformed
  | signed (payload : Claims) (iat : Nat) (exp : Nat) (key : String)
  deriving DecidableEq, Repr

/-- The three error kinds `jwt.verify` can raise. -/
inductive VerifyError where
  | invalidSignature
  | expired
  | malformed
  deriving DecidableEq, Repr

/-- `jwt.sign(claims, key, {expiresIn: '24h'})` at clock time `now`
(seconds since epoch). -/
def jwtSign (c : Claims) (key : String) (now : Nat) : TokenWire :=
  .signed c now (now + 86400) key

/-- `jwt.verify(token, key)` at clock time `now`: fails `malformed` on
garbage, `invalidSignature` when the signing key differs, `expired` when
`now ≥ exp`, and returns the payload otherwise. -/
def jwtVerify (t : TokenWire) (key : String) (now : Nat) :
    Except VerifyError Claims :=
  match t with
  | .malformed => .error .malformed
  | .signed payload _iat exp k =>
    if k ≠ key then .error .invalidSignature
    else if exp ≤ now then .error .expired
    else .ok payload

/-! ## Access Guard (`verifyToken`, `server.js` lines 52-73)

The middleware reads `req.headers.authorization?.split(' ')[1]`.
JavaScript `String.prototype.split(' ')` splits on every single space,
keeping empty fields, so it is modelled by direct recursion on the
character list; index `[1]` is the second field or `undefined`, and the
subsequent `if (!token)` also treats the empty string as missing. -/

/-- JavaScript `split(' ')` on a character list: split at every space,
keeping empty fields (`"".split(' ') = [""]`). -/
def splitCharsOnSpace : List Char → List (List Char)
  | [] => [[]]
  | c :: cs =>
    if c = ' ' then [] :: splitCharsOnSpace cs
    else
      match splitCharsOnSpace cs with
      | [] => [[c]]
      | r :: rs => (c :: r) :: rs

/-- JavaScript `s.split(' ')`. -/
def jsSplitSpace (s : String) : List String :=
  (splitCharsOnSpace s.data).map (fun l => ⟨l⟩)

/-- `req.headers.authorization?.split(' ')[1]` followed by the guard's
`if (!token)` falsiness test: `none` when the header is absent, has no
second space-separated field, or that field is the empty string. -/
def extractToken (authHeader : Option String) : Option String :=
  match authHeader with
  | none => none
  | some h =>
    match (jsSplitSpace h)[1]? with
    | none => none
    | some t => if t = "" then none else some t

/-- Outcome of the `verifyToken` middleware: an HTTP rejection
(status code and message, 401 = Unauthenticated, 403 = Forbidden) or
admission with the decoded claims bound to `req.user`. -/
inductive GuardResult where
  | rejected (status : Nat) (message : String)
  | admitted (user : Claims)
  deriving DecidableEq, Repr

/-- The decision taken by `verifyToken(roles)` once the token (if any)
has been extracted from the header (`server.js` lines 56-71).  Any
`jwt.verify` failure is caught and collapsed to a single 401; the role
check only applies when `roles` is non-empty.  The function is total:
no token input can crash the admission path. -/
def verifyTokenGuard (roles : List Rol) (tok : Option TokenWire)
    (key : String) (now : Nat) : GuardResult :=
  match tok with
  | none => .rejected 401 "Token no proporcionado"
  | some t =>
    match jwtVerify t key now with
    | .error _ => .rejected 401 "Token inválido"
    | .ok decoded =>
      if roles.length > 0 && !(roles.contains decoded.tipo) then
        .rejected 403 "Acceso denegado"
      else
        .admitted decoded

/-- The full middleware on a raw `Authorization` header. `env` gives the
wire-level content each token string decodes to (garbage strings map to
`TokenWire.malformed`). -/
def guardFromHeader (roles : List Rol) (authHeader : Option String)
    (env : String → TokenWire) (key : String) (now : Nat) : GuardResult :=
  verifyTokenGuard roles ((extractToken authHeader).map env) key now

/-! ## Ownership check (`PUT /api/negocios/:id`, `server.js` lines 442-449)

`req.user.negocio_id != negocioId` compares the numeric `negocio_id`
claim with the path parameter, which is a string, using JavaScript loose
inequality: the string is coerced with `ToNumber` (trim; empty string is
`0`; a signed decimal digit string is that integer; otherwise `NaN`,
which is equal to nothing), and `undefined == string` is `false`. -/

/-- JavaScript `ToNumber` on a string, modelled for the strings that can
denote integers: whitespace is trimmed, the empty string is `0`, an
optional sign followed by decimal digits is that integer, and anything
else is `NaN` (`none`). -/
def jsStringToNumber (s : String) : Option Int :=
  let t := ((s.data.dropWhile (·.isWhitespace)).reverse.dropWhile
    (·.isWhitespace)).reverse
  if t = [] then some 0
  else
    let (sign, digits) :=
      match t with
      | '-' :: rest => ((-1 : Int), rest)
      | '+' :: rest => ((1 : Int), rest)
      | l => ((1 : Int), l)
    if digits ≠ [] ∧ digits.all (·.isDigit) then
      some (sign * (digits.foldl (fun acc c => acc * 10 + (c.toNat - '0'.toNat)) 0 : Nat))
    else none

/-- JavaScript loose equality `x == y` between a token claim that is a
number or `undefined` (`Option Nat`) and a string. -/
def looseEqNumStr : Option Nat → String → Bool
  | none, _ => false
  | some n, s =>
    match jsStringToNumber s with
    | none => false
    | some m => decide ((n : Int) = m)

/-- Decision of the permission block guarding the business update. -/
inductive OwnershipDecision where
  | forbidden
  | admitted
  deriving DecidableEq, Repr

/-- The `// Verificar permisos` block of `PUT /api/negocios/:id`:
a 403 iff the caller's role is `admin_negocio` and its `negocio_id`
claim is loosely unequal to the `:id` path parameter; every other
admitted caller (in particular any `super_admin`) proceeds. -/
def putNegocioOwnership (user : Claims) (negocioIdParam : String) :
    OwnershipDecision :=
  if user.tipo = Rol.admin_negocio ∧ looseEqNumStr user.negocio_id negocioIdParam = false
  then .forbidden
  else .admitted

/-! ## Password hasher (`bcryptjs`)

Modelled from the `bcryptjs` contract used by `server.js`
(`bcrypt.hash(password, 10)` / `bcrypt.compare(password, hash)`):
hashing is a one-way function of the password and `compare` succeeds
exactly when the digest was produced from the same password. -/

/-- `bcrypt.hash(password, 10)`. -/
def bcryptHash (password : String) : String :=
  "bcrypt10" ++ password

/-- `bcrypt.compare(password, digest)`. -/
def bcryptCompare (password digest : String) : Bool :=
  digest = bcryptHash password

/-! ## Credential store rows

The MySQL tables touched by the auth routes, as lists of rows; each
`SELECT ... WHERE <unique column> = ?` is a filter followed by
`rows[0]`. -/

/-- A row of the `turistas` table (the columns the auth routes use). -/
structure Turista where
  id : Nat
  nombre : String
  apellido : String
  email : String
  password_hash : String
  estado : String
  telefono : String
  pais_origen : String
  ciudad_origen : String
  deriving DecidableEq, Repr

/-- A row of the `administradores_negocios` table. -/
structure AdminNegocio where
  id : Nat
  negocio_id : Nat
  nombre : String
  apellido : String
  email : String
  password_hash : String
  estado : String
  permisos : String
  deriving DecidableEq, Repr

/-- A row of the `negocios` table (only the columns the auth join
reads). -/
structure Negocio where
  id : Nat
  nombre : String
  deriving DecidableEq, Repr

/-- A row of the `super_administradores` table. -/
structure SuperAdmin where
  id : Nat
  usuario : String
  nombre : String
  email : String
  password_hash : String
  estado : String
  nivel_acceso : Nat
  permisos : String
  deriving DecidableEq, Repr

/-- `SELECT ... FROM turistas WHERE email = ?`, then `users[0]`. -/
def findTuristaByEmail (db : List Turista) (email : String) : Option Turista :=
  (db.filter (fun u => u.email = email)).head?

/-- The admin-login query: `FROM administradores_negocios an INNER JOIN
negocios n ON an.negocio_id = n.id WHERE an.email = ?`, then `users[0]`. -/
def findAdminJoinNegocio (admins : List AdminNegocio) (negocios : List Negocio)
    (email : String) : Option (AdminNegocio × Negocio) :=
  (admins.filterMap (fun a =>
    if a.email = email then
      ((negocios.filter (fun n => n.id = a.negocio_id)).head?).map (fun n => (a, n))
    else none)).head?

/-- The super-admin-login query: `... FROM super_administradores WHERE
usuario = ? AND estado = "activo"`, then `users[0]`.  Note that the
status filter is part of the lookup itself. -/
def findSuperAdminActive (db : List SuperAdmin) (usuario : String) :
    Option SuperAdmin :=
  (db.filter (fun u => u.usuario = usuario ∧ u.estado = "activo")).head?

/-! ## Login handlers

Each handler is a total function of the table contents, the request
body, the JWT key, the clock, and a flag `touchFails` that models
whether the awaited `UPDATE ... SET ultima_conexion = NOW()` statement
throws.  That statement sits inside the handler's `try` block *before*
the success response, so its failure is caught by the generic handler
and produces a 500. -/

/-- Outcome of a login route: an HTTP failure (status, message) or the
200 response carrying the signed token and the public user object. -/
inductive LoginResult (α : Type) where
  | failure (status : Nat) (message : String)
  | success (token : TokenWire) (user : α)
  deriving DecidableEq, Repr

/-- Public user object of the tourist login response. -/
structure TuristaPublic where
  id : Nat
  nombre : String
  apellido : String
  email : String
  deriving DecidableEq, Repr

/-- `POST /api/auth/turista/login` (`server.js` lines 78-135). -/
def loginTurista (db : List Turista) (email password : String)
    (key : String) (now : Nat) (touchFails : Bool) : LoginResult TuristaPublic :=
  match findTuristaByEmail db email with
  | none => .failure 401 "Credenciales inválidas"
  | some user =>
    if user.estado ≠ "activo" then .failure 401 "Cuenta inactiva"
    else if ¬ bcryptCompare password user.password_hash then
      .failure 401 "Credenciales inválidas"
    else if touchFails then .failure 500 "Error interno del servidor"
    else
      .success
        (jwtSign { id := user.id, email := some user.email, usuario := none,
                   negocio_id := none, nivel_acceso := none, tipo := .turista }
          key now)
        { id := user.id, nombre := user.nombre, apellido := user.apellido,
          email := user.email }

/-- Public user object of the business-admin login response. -/
structure AdminPublic where
  id : Nat
  nombre : String
  apellido : String
  email : String
  negocio_id : Nat
  nombre_negocio : String
  permisos : String
  deriving DecidableEq, Repr

/-- `POST /api/auth/admin/login` (`server.js` lines 138-205). -/
def loginAdminNegocio (admins : List AdminNegocio) (negocios : List Negocio)
    (email password : String) (key : String) (now : Nat) (touchFails : Bool) :
    LoginResult AdminPublic :=
  match findAdminJoinNegocio admins negocios email with
  | none => .failure 401 "Credenciales inválidas"
  | some (user, neg) =>
    if user.estado ≠ "activo" then .failure 401 "Cuenta inactiva"
    else if ¬ bcryptCompare password user.password_hash then
      .failure 401 "Credenciales inválidas"
    else if touchFails then .failure 500 "Error interno del servidor"
    else
      .success
        (jwtSign { id := user.id, email := some user.email, usuario := none,
                   negocio_id := some user.negocio_id, nivel_acceso := none,
                   tipo := .admin_negocio }
          key now)
        { id := user.id, nombre := user.nombre, apellido := user.apellido,
          email := user.email, negocio_id := user.negocio_id,
          nombre_negocio := neg.nombre, permisos := user.permisos }

/-- Public user object of the super-admin login response. -/
structure SuperAdminPublic where
  id : Nat
  usuario : String
  nombre : String
  email : String
  nivel_acceso : Nat
  permisos : String
  deriving DecidableEq, Repr

/-- `POST /api/auth/super-admin/login` (`server.js` lines 208-267).
There is no separate status branch: the lookup already requires
`estado = "activo"`, so an inactive account falls into the zero-row
case. -/
def loginSuperAdmin (db : List SuperAdmin) (usuario password : String)
    (key : String) (now : Nat) (touchFails : Bool) : LoginResult SuperAdminPublic :=
  match findSuperAdminActive db usuario with
  | none => .failure 401 "Credenciales inválidas"
  | some user =>
    if ¬ bcryptCompare password user.password_hash then
      .failure 401 "Credenciales inválidas"
    else if touchFails then .failure 500 "Error interno del servidor"
    else
      .success
        (jwtSign { id := user.id, email := none, usuario := some user.usuario,
                   negocio_id := none, nivel_acceso := some user.nivel_acceso,
                   tipo := .super_admin }
          key now)
        { id := user.id, usuario := user.usuario, nombre := user.nombre,
          email := user.email, nivel_acceso := user.nivel_acceso,
          permisos := user.permisos }

/-! ## Tourist registration (`POST /api/auth/turista/register`,
`server.js` lines 270-306) -/

/-- Outcome of the registration route: 400 on duplicate email, or 201
with the generated id. -/
inductive RegisterResult where
  | duplicate
  | created (id : Nat)
  deriving DecidableEq, Repr

/-- `POST /api/auth/turista/register`: duplicate-email pre-check, then
`bcrypt.hash(password, 10)` and the `INSERT`.  `nextId` models the
auto-increment counter (`result.insertId`).  The `INSERT` omits the
`estado` column; modelled from the spec: the `turistas` schema (not in
the repository sources) defaults `estado` to `activo`, so the inserted
row is active by default.  Returns the route outcome together with the
table contents after the request. -/
def registerTurista (db : List Turista) (nextId : Nat)
    (nombre apellido email password telefono pais_origen ciudad_origen : String) :
    RegisterResult × List Turista :=
  if (db.filter (fun u => u.email = email)).length > 0 then
    (.duplicate, db)
  else
    let newRow : Turista :=
      { id := nextId, nombre := nombre, apellido := apellido, email := email,
        password_hash := bcryptHash password, estado := "activo",
        telefono := telefono, pais_origen := pais_origen,
        ciudad_origen := ciudad_origen }
    (.created nextId, db ++ [newRow])

/-! ## Theorems -/

/-- A role list's `contains` (JavaScript `roles.includes`) agrees with
membership. -/
theorem rol_contains_iff_mem (roles : List Rol) (r : Rol) :
    roles.contains r = true ↔ r ∈ roles :=
  List.elem_iff

/-- Sample claim set used to instantiate hypothesis-bearing theorems. -/
def sampleClaims : Claims :=
  { id := 1, email := some "a@x.com", usuario := none, negocio_id := none,
    nivel_acceso := none, tipo := .turista }

/-- C1: the Access Guard fails 401 (Unauthenticated) when no bearer
token is present; any `jwt.verify` failure — whatever the codec-level
error kind — is collapsed to a single 401 (Unauthenticated) rather than
crashing the handler; a decoded role outside a non-empty allowed set
fails 403 (Forbidden); otherwise the decoded claims are bound and the
request is admitted. -/
theorem verifyToken_admission_spec (roles : List Rol) (key : String) (now : Nat) :
    (verifyTokenGuard roles none key now = .rejected 401 "Token no proporcionado") ∧
    (∀ t e, jwtVerify t key now = .error e →
      verifyTokenGuard roles (some t) key now = .rejected 401 "Token inválido") ∧
    (∀ t c, jwtVerify t key now = .ok c → roles ≠ [] → c.tipo ∉ roles →
      verifyTokenGuard roles (some t) key now = .rejected 403 "Acceso denegado") ∧
    (∀ t c, jwtVerify t key now = .ok c → (roles = [] ∨ c.tipo ∈ roles) →
      verifyTokenGuard roles (some t) key now = .admitted c) := by
  refine ⟨rfl, ?_, ?_, ?_⟩
  · intro t e h
    simp [verifyTokenGuard, h]
  · intro t c h hne hnotin
    have h1 : 0 < roles.length := by
      cases roles with
      | nil => exact absurd rfl hne
      | cons a l => simp
    have h2 : roles.contains c.tipo = false := by
      cases hc : roles.contains c.tipo with
      | false => rfl
      | true => exact absurd ((rol_contains_iff_mem roles c.tipo).mp hc) hnotin
    have hcond : (decide (roles.length > 0) && !roles.contains c.tipo) = true := by
      rw [h2, decide_eq_true h1]
      rfl
    simp only [verifyTokenGuard, h]
    rw [hcond]
    rfl
  · intro t c h hmem
    have hcond : (decide (roles.length > 0) && !roles.contains c.tipo) = false := by
      rcases hmem with hnil | hmem
      · subst hnil; rfl
      · have hc : roles.contains c.tipo = true := (rol_contains_iff_mem roles c.tipo).mpr hmem
        rw [hc]
        simp
    simp only [verifyTokenGuard, h]
    rw [hcond]
    rfl

/-- C1 witness: concrete instances of every hypothesis-bearing branch of
`verifyToken_admission_spec`. -/
theorem verifyToken_admission_spec_witness :
    verifyTokenGuard [Rol.turista] (some TokenWire.malformed) "k" 5 =
      .rejected 401 "Token inválido" ∧
    verifyTokenGuard [Rol.super_admin] (some (jwtSign sampleClaims "k" 0)) "k" 5 =
      .rejected 403 "Acceso denegado" ∧
    verifyTokenGuard [Rol.turista] (some (jwtSign sampleClaims "k" 0)) "k" 5 =
      .admitted sampleClaims :=
  ⟨(verifyToken_admission_spec [Rol.turista] "k" 5).2.1 TokenWire.malformed
      VerifyError.malformed rfl,
   (verifyToken_admission_spec [Rol.super_admin] "k" 5).2.2.1
      (jwtSign sampleClaims "k" 0) sampleClaims rfl (by decide) (by decide),
   (verifyToken_admission_spec [Rol.turista] "k" 5).2.2.2
      (jwtSign sampleClaims "k" 0) sampleClaims rfl (Or.inr (by decide))⟩

/-- C6: verifying a freshly issued token with the signing key returns
the signed claims whenever the clock is strictly before issuance + 24
hours; at exactly issuance + 24 hours (86400 s) or later it fails with
the expiry error; at issuance + 24 hours − 1 s it succeeds. -/
theorem token_roundtrip_expiry (c : Claims) (key : String) (now t : Nat) :
    (t < now + 86400 → jwtVerify (jwtSign c key now) key t = .ok c) ∧
    (now + 86400 ≤ t → jwtVerify (jwtSign c key now) key t = .error .expired) ∧
    jwtVerify (jwtSign c key now) key (now + 86400 - 1) = .ok c := by
  have hsig : ∀ u : Nat, jwtVerify (jwtSign c key now) key u =
      if now + 86400 ≤ u then .error .expired else .ok c := by
    intro u
    simp [jwtVerify, jwtSign]
  refine ⟨?_, ?_, ?_⟩
  · intro h
    rw [hsig, if_neg (by omega)]
  · intro h
    rw [hsig, if_pos h]
  · rw [hsig, if_neg (by omega)]

/-- C6 witness: round trip at 86399 s succeeds, at 86400 s expires. -/
theorem token_roundtrip_expiry_witness :
    jwtVerify (jwtSign sampleClaims "k" 0) "k" 86399 = .ok sampleClaims ∧
    jwtVerify (jwtSign sampleClaims "k" 0) "k" 86400 = .error .expired :=
  ⟨(token_roundtrip_expiry sampleClaims "k" 0 86399).1 (by decide),
   (token_roundtrip_expiry sampleClaims "k" 0 86400).2.1 (by decide)⟩

/-- C7: with an empty allowed-role list, `verifyToken` admits every
caller whose token verifies, whatever its role — empty means "no role
restriction", not deny-all. -/
theorem empty_roles_no_restriction (t : TokenWire) (key : String) (now : Nat)
    (c : Claims) (h : jwtVerify t key now = .ok c) :
    verifyTokenGuard [] (some t) key now = .admitted c := by
  simp [verifyTokenGuard, h]

/-- C7 witness: a tourist token admitted by a guard with no role list. -/
theorem empty_roles_no_restriction_witness :
    verifyTokenGuard [] (some (jwtSign sampleClaims "k" 0)) "k" 5 =
      .admitted sampleClaims :=
  empty_roles_no_restriction (jwtSign sampleClaims "k" 0) "k" 5 sampleClaims rfl

/-- C2: on the business-update route, a caller admitted as
`admin_negocio` bound to business `n` is admitted by the ownership check
iff the `:id` path parameter denotes the number `n`, and gets a 403
(Forbidden) on mismatch; a `super_admin` caller skips the check and is
admitted for any target id. -/
theorem business_ownership_equality_spec (user : Claims) (s : String) :
    (∀ n m : Nat, user.tipo = Rol.admin_negocio → user.negocio_id = some n →
      jsStringToNumber s = some (m : Int) →
      ((n = m → putNegocioOwnership user s = .admitted) ∧
       (n ≠ m → putNegocioOwnership user s = .forbidden))) ∧
    (user.tipo = Rol.super_admin → putNegocioOwnership user s = .admitted) := by
  constructor
  · intro n m htipo hneg hparse
    have hl : looseEqNumStr user.negocio_id s = decide ((n : Int) = (m : Nat)) := by
      rw [hneg]
      simp [looseEqNumStr, hparse]
    constructor
    · intro heq
      have htrue : looseEqNumStr user.negocio_id s = true := by
        rw [hl]
        exact decide_eq_true (by exact_mod_cast heq)
      unfold putNegocioOwnership
      rw [if_neg]
      rintro ⟨-, hfalse⟩
      rw [htrue] at hfalse
      exact Bool.noConfusion hfalse
    · intro hne
      have hfalse : looseEqNumStr user.negocio_id s = false := by
        rw [hl]
        exact decide_eq_false (by exact_mod_cast hne)
      unfold putNegocioOwnership
      rw [if_pos ⟨htipo, hfalse⟩]
  · intro htipo
    unfold putNegocioOwnership
    rw [if_neg]
    rintro ⟨hadmin, -⟩
    rw [htipo] at hadmin
    exact Rol.noConfusion hadmin

/-- Claims of a business admin bound to business 5, as signed by the
admin login route. -/
def adminClaims5 : Claims :=
  { id := 3, email := some "e@x.com", usuario := none, negocio_id := some 5,
    nivel_acceso := none, tipo := .admin_negocio }

/-- Claims of a super admin, as signed by the super-admin login route. -/
def superClaims : Claims :=
  { id := 9, email := none, usuario := some "root", negocio_id := none,
    nivel_acceso := some 1, tipo := .super_admin }

/-- C2 witness: an admin of business 5 targeting `"5"` is admitted and
targeting `"6"` is forbidden; a super admin targeting `"6"` is
admitted. -/
theorem business_ownership_equality_spec_witness :
    putNegocioOwnership adminClaims5 "5" = .admitted ∧
    putNegocioOwnership adminClaims5 "6" = .forbidden ∧
    putNegocioOwnership superClaims "6" = .admitted :=
  ⟨((business_ownership_equality_spec adminClaims5 "5").1 5 5 rfl rfl
      (by decide)).1 rfl,
   ((business_ownership_equality_spec adminClaims5 "6").1 5 6 rfl rfl
      (by decide)).2 (by decide),
   (business_ownership_equality_spec superClaims "6").2 rfl⟩

/-- C10: the ownership comparison is JavaScript loose inequality between
the numeric `negocio_id` claim and the `:id` path string: an
`admin_negocio` caller is admitted iff the string loosely equals its
bound number, and in particular the string `"5"` is admitted against the
number `5` with no strict type check. -/
theorem ownership_loose_equality_spec (user : Claims) (n : Nat) (s : String)
    (htipo : user.tipo = Rol.admin_negocio) (hneg : user.negocio_id = some n) :
    (putNegocioOwnership user s = .admitted ↔ looseEqNumStr (some n) s = true) ∧
    looseEqNumStr (some 5) "5" = true ∧
    jsStringToNumber "5" = some 5 := by
  refine ⟨?_, by decide, by decide⟩
  rw [← hneg]
  constructor
  · intro hadm
    cases hc : looseEqNumStr user.negocio_id s with
    | true => rfl
    | false =>
      rw [putNegocioOwnership, if_pos ⟨htipo, hc⟩] at hadm
      exact OwnershipDecision.noConfusion hadm
  · intro hc
    unfold putNegocioOwnership
    rw [if_neg]
    rintro ⟨-, hfalse⟩
    rw [hc] at hfalse
    exact Bool.noConfusion hfalse

/-- C10 witness: the admin of business 5 and the path string `"5"`. -/
theorem ownership_loose_equality_spec_witness :
    putNegocioOwnership adminClaims5 "5" = .admitted ↔
      looseEqNumStr (some 5) "5" = true :=
  (ownership_loose_equality_spec adminClaims5 5 "5" rfl rfl).1

/-! ### Sample store rows for witnesses and counterexamples -/

/-- An active tourist whose password is `"secret1"`. -/
def activeTurista : Turista :=
  { id := 1, nombre := "Ana", apellido := "Diaz", email := "a@x.com",
    password_hash := bcryptHash "secret1", estado := "activo",
    telefono := "", pais_origen := "", ciudad_origen := "" }

/-- An inactive tourist whose password is `"secret1"`. -/
def inactiveTurista : Turista :=
  { activeTurista with id := 2, email := "b@x.com", estado := "inactivo" }

/-- A business the sample admin is bound to. -/
def sampleNegocio : Negocio :=
  { id := 5, nombre := "Cafe Centro" }

/-- An inactive business admin of `sampleNegocio`, password `"secret1"`. -/
def inactiveAdmin : AdminNegocio :=
  { id := 3, negocio_id := 5, nombre := "Eva", apellido := "Gil",
    email := "e@x.com", password_hash := bcryptHash "secret1",
    estado := "inactivo", permisos := "" }

/-- An inactive super admin whose password is `"secret1"`. -/
def inactiveSuperAdmin : SuperAdmin :=
  { id := 4, usuario := "root", nombre := "Rey", email := "root@x.com",
    password_hash := bcryptHash "secret1", estado := "inactivo",
    nivel_acceso := 1, permisos := "" }

/-- C3 counterexample: an inactive super admin supplying the correct
password gets `Credenciales inválidas` (InvalidCredentials), not
`Cuenta inactiva` (InactiveAccount) — the super-admin variant does not
produce the InactiveAccount outcome, refuting the claim for that
variant. -/
theorem superAdmin_inactive_counterexample :
    loginSuperAdmin [inactiveSuperAdmin] "root" "secret1" "k" 0 false =
      .failure 401 "Credenciales inválidas" ∧
    loginSuperAdmin [inactiveSuperAdmin] "root" "secret1" "k" 0 false ≠
      .failure 401 "Cuenta inactiva" ∧
    bcryptCompare "secret1" inactiveSuperAdmin.password_hash = true ∧
    inactiveSuperAdmin.estado ≠ "activo" := by
  refine ⟨rfl, ?_, rfl, ?_⟩ <;> decide

/-- C3 amended: an inactive tourist or business admin fails login with
`Cuenta inactiva` (InactiveAccount) even when the secret is correct, an
outcome distinct from `Credenciales inválidas` (InvalidCredentials);
the super-admin variant instead fails with InvalidCredentials for an
inactive account, because its lookup query filters on
`estado = "activo"`. -/
theorem inactive_account_amended
    (turistas : List Turista) (admins : List AdminNegocio)
    (negocios : List Negocio) (sas : List SuperAdmin)
    (e1 e2 u3 pw key : String) (now : Nat) (tf : Bool) :
    (∀ u, findTuristaByEmail turistas e1 = some u → u.estado ≠ "activo" →
      loginTurista turistas e1 pw key now tf = .failure 401 "Cuenta inactiva") ∧
    (∀ a n, findAdminJoinNegocio admins negocios e2 = some (a, n) →
      a.estado ≠ "activo" →
      loginAdminNegocio admins negocios e2 pw key now tf =
        .failure 401 "Cuenta inactiva") ∧
    ((∀ u ∈ sas, u.usuario = u3 → u.estado ≠ "activo") →
      loginSuperAdmin sas u3 pw key now tf =
        .failure 401 "Credenciales inválidas") ∧
    (LoginResult.failure (α := TuristaPublic) 401 "Cuenta inactiva" ≠
      LoginResult.failure 401 "Credenciales inválidas") := by
  refine ⟨?_, ?_, ?_, by decide⟩
  · intro u hf hs
    simp [loginTurista, hf, hs]
  · intro a n hf hs
    simp [loginAdminNegocio, hf, hs]
  · intro h
    have hnone : findSuperAdminActive sas u3 = none := by
      unfold findSuperAdminActive
      rw [List.filter_eq_nil_iff.mpr ?_]
      · rfl
      · intro x hx
        simp only [decide_eq_true_eq, not_and]
        intro hu
        exact h x hx hu
    simp [loginSuperAdmin, hnone]

/-- C3 witness: the concrete inactive rows of each variant. -/
theorem inactive_account_amended_witness :
    loginTurista [inactiveTurista] "b@x.com" "secret1" "k" 0 false =
      .failure 401 "Cuenta inactiva" ∧
    loginAdminNegocio [inactiveAdmin] [sampleNegocio] "e@x.com" "secret1" "k" 0 false =
      .failure 401 "Cuenta inactiva" ∧
    loginSuperAdmin [inactiveSuperAdmin] "root" "secret1" "k" 0 false =
      .failure 401 "Credenciales inválidas" :=
  ⟨(inactive_account_amended [inactiveTurista] [] [] [] "b@x.com" "" "" "secret1"
      "k" 0 false).1 inactiveTurista rfl (by decide),
   (inactive_account_amended [] [inactiveAdmin] [sampleNegocio] [] "" "e@x.com" ""
      "secret1" "k" 0 false).2.1 inactiveAdmin sampleNegocio rfl (by decide),
   (inactive_account_amended [] [] [] [inactiveSuperAdmin] "" "" "root" "secret1"
      "k" 0 false).2.2.1 (by decide)⟩

/-- C4: in every login variant an unknown identifier (zero-row lookup)
and a wrong secret against an existing (active) identifier produce the
same caller-visible failure `Credenciales inválidas`
(InvalidCredentials); and the tourist handler checks existence, then
status, then the secret: an inactive account fails with
`Cuenta inactiva` whatever the supplied secret, so the secret is never
the deciding check before status. -/
theorem login_invalid_credentials_uniform
    (turistas : List Turista) (admins : List AdminNegocio)
    (negocios : List Negocio) (sas : List SuperAdmin)
    (e1 e2 u3 pw key : String) (now : Nat) (tf : Bool) :
    (findTuristaByEmail turistas e1 = none →
      loginTurista turistas e1 pw key now tf =
        .failure 401 "Credenciales inválidas") ∧
    (findAdminJoinNegocio admins negocios e2 = none →
      loginAdminNegocio admins negocios e2 pw key now tf =
        .failure 401 "Credenciales inválidas") ∧
    (findSuperAdminActive sas u3 = none →
      loginSuperAdmin sas u3 pw key now tf =
        .failure 401 "Credenciales inválidas") ∧
    (∀ u, findTuristaByEmail turistas e1 = some u → u.estado = "activo" →
      bcryptCompare pw u.password_hash = false →
      loginTurista turistas e1 pw key now tf =
        .failure 401 "Credenciales inválidas") ∧
    (∀ a n, findAdminJoinNegocio admins negocios e2 = some (a, n) →
      a.estado = "activo" → bcryptCompare pw a.password_hash = false →
      loginAdminNegocio admins negocios e2 pw key now tf =
        .failure 401 "Credenciales inválidas") ∧
    (∀ u, findSuperAdminActive sas u3 = some u →
      bcryptCompare pw u.password_hash = false →
      loginSuperAdmin sas u3 pw key now tf =
        .failure 401 "Credenciales inválidas") ∧
    (∀ u, findTuristaByEmail turistas e1 = some u → u.estado ≠ "activo" →
      loginTurista turistas e1 pw key now tf =
        .failure 401 "Cuenta inactiva") := by
  refine ⟨?_, ?_, ?_, ?_, ?_, ?_, ?_⟩
  · intro h
    simp [loginTurista, h]
  · intro h
    simp [loginAdminNegocio, h]
  · intro h
    simp [loginSuperAdmin, h]
  · intro u hf hs hp
    simp [loginTurista, hf, hs, hp]
  · intro a n hf hs hp
    simp [loginAdminNegocio, hf, hs, hp]
  · intro u hf hp
    simp [loginSuperAdmin, hf, hp]
  · intro u hf hs
    simp [loginTurista, hf, hs]

/-- An active business admin of `sampleNegocio`, password `"secret1"`. -/
def activeAdmin : AdminNegocio :=
  { inactiveAdmin with id := 6, email := "f@x.com", estado := "activo" }

/-- An active super admin whose password is `"secret1"`. -/
def activeSuperAdmin : SuperAdmin :=
  { inactiveSuperAdmin with id := 7, usuario := "boss", estado := "activo" }

/-- C4 witness: unknown identifiers on empty tables and wrong secrets
against the sample active rows, for each variant. -/
theorem login_invalid_credentials_uniform_witness :
    loginTurista [] "a@x.com" "secret1" "k" 0 false =
      .failure 401 "Credenciales inválidas" ∧
    loginAdminNegocio [] [] "f@x.com" "secret1" "k" 0 false =
      .failure 401 "Credenciales inválidas" ∧
    loginSuperAdmin [] "boss" "secret1" "k" 0 false =
      .failure 401 "Credenciales inválidas" ∧
    loginTurista [activeTurista] "a@x.com" "wrongpass" "k" 0 false =
      .failure 401 "Credenciales inválidas" ∧
    loginAdminNegocio [activeAdmin] [sampleNegocio] "f@x.com" "wrongpass" "k" 0 false =
      .failure 401 "Credenciales inválidas" ∧
    loginSuperAdmin [activeSuperAdmin] "boss" "wrongpass" "k" 0 false =
      .failure 401 "Credenciales inválidas" ∧
    loginTurista [inactiveTurista] "b@x.com" "wrongpass" "k" 0 false =
      .failure 401 "Cuenta inactiva" :=
  ⟨(login_invalid_credentials_uniform [] [] [] [] "a@x.com" "" "" "secret1" "k" 0
      false).1 rfl,
   (login_invalid_credentials_uniform [] [] [] [] "" "f@x.com" "" "secret1" "k" 0
      false).2.1 rfl,
   (login_invalid_credentials_uniform [] [] [] [] "" "" "boss" "secret1" "k" 0
      false).2.2.1 rfl,
   (login_invalid_credentials_uniform [activeTurista] [] [] [] "a@x.com" "" ""
      "wrongpass" "k" 0 false).2.2.2.1 activeTurista rfl rfl (by decide),
   (login_invalid_credentials_uniform [] [activeAdmin] [sampleNegocio] [] ""
      "f@x.com" "" "wrongpass" "k" 0 false).2.2.2.2.1 activeAdmin sampleNegocio
      rfl rfl (by decide),
   (login_invalid_credentials_uniform [] [] [] [activeSuperAdmin] "" "" "boss"
      "wrongpass" "k" 0 false).2.2.2.2.2.1 activeSuperAdmin rfl (by decide),
   (login_invalid_credentials_uniform [inactiveTurista] [] [] [] "b@x.com" "" ""
      "wrongpass" "k" 0 false).2.2.2.2.2.2 inactiveTurista rfl (by decide)⟩

/-- C5 counterexample: a valid login of an active tourist whose
last-seen `UPDATE` throws ends in a 500 failure — the caller does not
receive the success result with the issued token (the same request with
a working update succeeds). -/
theorem touch_failure_counterexample :
    loginTurista [activeTurista] "a@x.com" "secret1" "k" 0 true =
      .failure 500 "Error interno del servidor" ∧
    loginTurista [activeTurista] "a@x.com" "secret1" "k" 0 false =
      .success
        (jwtSign { id := 1, email := some "a@x.com", usuario := none,
                   negocio_id := none, nivel_acceso := none, tipo := .turista }
          "k" 0)
        { id := 1, nombre := "Ana", apellido := "Diaz", email := "a@x.com" } :=
  ⟨rfl, rfl⟩

/-- C5 amended: the last-seen timestamp update is awaited inside the
handler's `try` block before the response is sent, so its failure fails
the whole login with a 500 internal error even for valid credentials on
an active account; it is not best-effort. -/
theorem touch_failure_fails_login (db : List Turista) (email pw key : String)
    (now : Nat) (u : Turista) (hf : findTuristaByEmail db email = some u)
    (ha : u.estado = "activo") (hp : bcryptCompare pw u.password_hash = true) :
    loginTurista db email pw key now true =
      .failure 500 "Error interno del servidor" := by
  simp [loginTurista, hf, ha, hp]

/-- C5 witness: the active sample tourist with the correct password. -/
theorem touch_failure_fails_login_witness :
    loginTurista [activeTurista] "a@x.com" "secret1" "k" 0 true =
      .failure 500 "Error interno del servidor" :=
  touch_failure_fails_login [activeTurista] "a@x.com" "secret1" "k" 0
    activeTurista rfl rfl (by decide)

/-- C8: tourist registration fails with the duplicate-identifier error
and leaves the table unchanged when the email already exists; otherwise
it hashes the secret, inserts a row that is active by default, and
returns the generated id. -/
theorem register_turista_spec (db : List Turista) (nextId : Nat)
    (nombre apellido email pw tel pais ciudad : String) :
    ((∃ u ∈ db, u.email = email) →
      registerTurista db nextId nombre apellido email pw tel pais ciudad =
        (.duplicate, db)) ∧
    ((∀ u ∈ db, u.email ≠ email) →
      registerTurista db nextId nombre apellido email pw tel pais ciudad =
        (.created nextId,
          db ++ [{ id := nextId, nombre := nombre, apellido := apellido,
                   email := email, password_hash := bcryptHash pw,
                   estado := "activo", telefono := tel, pais_origen := pais,
                   ciudad_origen := ciudad }])) := by
  constructor
  · rintro ⟨u, hu, he⟩
    have hmem : u ∈ db.filter (fun v => v.email = email) :=
      List.mem_filter.mpr ⟨hu, by simp [he]⟩
    have hpos : 0 < (db.filter (fun v => v.email = email)).length :=
      List.length_pos.mpr (List.ne_nil_of_mem hmem)
    simp [registerTurista, hpos]
  · intro h
    have hnil : db.filter (fun v => v.email = email) = [] :=
      List.filter_eq_nil_iff.mpr (by
        intro x hx
        simp only [decide_eq_true_eq]
        exact h x hx)
    simp [registerTurista, hnil]

/-- C8 witness: a fresh registration on an empty table succeeds with the
generated id and the active row; repeating it with the same email fails
with the duplicate error and inserts nothing. -/
theorem register_turista_spec_witness :
    registerTurista [] 1 "Ana" "Diaz" "a@x.com" "secret1" "" "" "" =
      (.created 1, [activeTurista]) ∧
    registerTurista [activeTurista] 2 "Bea" "Sol" "a@x.com" "secret2" "" "" "" =
      (.duplicate, [activeTurista]) :=
  ⟨(register_turista_spec [] 1 "Ana" "Diaz" "a@x.com" "secret1" "" "" "").2
      (by decide),
   (register_turista_spec [activeTurista] 2 "Bea" "Sol" "a@x.com" "secret2" ""
      "" "").1 ⟨activeTurista, by decide, by decide⟩⟩

/-! ### Header splitting lemmas -/

/-- Splitting a space-free character list yields that list alone. -/
theorem splitCharsOnSpace_no_space (cs : List Char) (h : ' ' ∉ cs) :
    splitCharsOnSpace cs = [cs] := by
  induction cs with
  | nil => rfl
  | cons c cs ih =>
    have hc : ¬ c = ' ' := fun he => h (he ▸ List.mem_cons_self c cs)
    have hcs : ' ' ∉ cs := fun hm => h (List.mem_cons_of_mem c hm)
    unfold splitCharsOnSpace
    rw [if_neg hc, ih hcs]

/-- Splitting a list whose first space separates a space-free prefix. -/
theorem splitCharsOnSpace_append (a b : List Char) (h : ' ' ∉ a) :
    splitCharsOnSpace (a ++ ' ' :: b) = a :: splitCharsOnSpace b := by
  induction a with
  | nil => rfl
  | cons c a ih =>
    have hc : ¬ c = ' ' := fun he => h (he ▸ List.mem_cons_self c a)
    have ha : ' ' ∉ a := fun hm => h (List.mem_cons_of_mem c hm)
    show splitCharsOnSpace (c :: (a ++ ' ' :: b)) = (c :: a) :: splitCharsOnSpace b
    simp only [splitCharsOnSpace]
    rw [if_neg hc, ih ha]

/-- Token extraction on a header of the shape `<scheme> <token>` with a
space-free scheme word and token. -/
theorem extractToken_scheme (scheme tok : String) (hs : ' ' ∉ scheme.data)
    (ht : ' ' ∉ tok.data) :
    extractToken (some (scheme ++ " " ++ tok)) =
      if tok = "" then none else some tok := by
  have hdata : (scheme ++ " " ++ tok).data = scheme.data ++ ' ' :: tok.data := by
    rw [String.data_append, String.data_append, List.append_assoc]
    rfl
  simp only [extractToken, jsSplitSpace]
  rw [hdata, splitCharsOnSpace_append _ _ hs, splitCharsOnSpace_no_space _ ht]
  rfl

/-- Token extraction on a header containing no space yields no token. -/
theorem extractToken_no_space (h : String) (hns : ' ' ∉ h.data) :
    extractToken (some h) = none := by
  simp only [extractToken, jsSplitSpace]
  rw [splitCharsOnSpace_no_space _ hns]
  rfl

/-- The extraction rule asserted by the scheme claim: everything after
the first space of the header value. -/
def afterFirstSpaceChars : List Char → Option (List Char)
  | [] => none
  | c :: cs => if c = ' ' then some cs else afterFirstSpaceChars cs

/-- The substring after the first space of a string (`none` when the
string has no space). -/
def afterFirstSpace (s : String) : Option String :=
  (afterFirstSpaceChars s.data).map (fun l => ⟨l⟩)

/-- A token environment for witnesses: only the string `"abc"` decodes
to a well-signed token; every other string is garbage. -/
def sampleEnv : String → TokenWire :=
  fun s => if s = "abc" then jwtSign sampleClaims "k" 0 else TokenWire.malformed

/-- C9 counterexample: for the header value `"Bearer abc def"`, which
contains a space, the guard uses the second space-separated field
`"abc"` as the token, not the substring after the first space
`"abc def"`; the difference is observable — the request is admitted
when `"abc"` is a valid token, whereas the string after the first space
is not a valid token and would be rejected. -/
theorem after_first_space_counterexample :
    ("Bearer abc def".data.contains ' ' = true) ∧
    afterFirstSpace "Bearer abc def" = some "abc def" ∧
    extractToken (some "Bearer abc def") = some "abc" ∧
    (some "abc" ≠ some "abc def") ∧
    guardFromHeader [] (some "Bearer abc def") sampleEnv "k" 5 =
      .admitted sampleClaims ∧
    verifyTokenGuard [] (some (sampleEnv "abc def")) "k" 5 =
      .rejected 401 "Token inválido" := by
  exact ⟨by decide, by decide, rfl, by decide, rfl, rfl⟩

/-- C9 amended: the Access Guard never validates the authorization
scheme word — for a header `<scheme> <token>` (space-free scheme word
and token) the second space-separated field is used as the token, so
any scheme word behaves exactly like `Bearer`; a header value with no
space yields no token and is rejected 401 as missing. -/
theorem scheme_word_not_validated (scheme tok : String) (roles : List Rol)
    (env : String → TokenWire) (key : String) (now : Nat)
    (hs : ' ' ∉ scheme.data) (ht : ' ' ∉ tok.data) :
    guardFromHeader roles (some (scheme ++ " " ++ tok)) env key now =
      guardFromHeader roles (some ("Bearer" ++ " " ++ tok)) env key now ∧
    (tok ≠ "" → extractToken (some (scheme ++ " " ++ tok)) = some tok) ∧
    (∀ h : String, ' ' ∉ h.data →
      guardFromHeader roles (some h) env key now =
        .rejected 401 "Token no proporcionado") := by
  refine ⟨?_, ?_, ?_⟩
  · unfold guardFromHeader
    rw [extractToken_scheme _ _ hs ht, extractToken_scheme _ _ (by decide) ht]
  · intro hne
    rw [extractToken_scheme _ _ hs ht, if_neg hne]
  · intro h hns
    unfold guardFromHeader
    rw [extractToken_no_space _ hns]
    rfl

/-- C9 amended witness: `"Basic abc"` is treated exactly like
`"Bearer abc"`, and a space-free header value is rejected as missing a
token. -/
theorem scheme_word_not_validated_witness :
    guardFromHeader [] (some ("Basic" ++ " " ++ "abc")) sampleEnv "k" 5 =
      guardFromHeader [] (some ("Bearer" ++ " " ++ "abc")) sampleEnv "k" 5 ∧
    extractToken (some ("Basic" ++ " " ++ "abc")) = some "abc" ∧
    guardFromHeader [] (some "abc") sampleEnv "k" 5 =
      .rejected 401 "Token no proporcionado" :=
  ⟨(scheme_word_not_validated "Basic" "abc" [] sampleEnv "k" 5 (by decide)
      (by decide)).1,
   (scheme_word_not_validated "Basic" "abc" [] sampleEnv "k" 5 (by decide)
      (by decide)).2.1 (by decide),
   (scheme_word_not_validated "Basic" "abc" [] sampleEnv "k" 5 (by decide)
      (by decide)).2.2 "abc" (by decide)⟩

end TourismAuth
